import Mathlib

/-!
Verification of the remotestate provisioning core.

This file gives a shallow embedding, in Lean, of the core logic of the
remotestate repository (src/remotestate/main): the git-derived naming
(make_backend.py, Backend.source_git), the name validators
(aws_bucket.validate_s3bucket_name, aws_table.validate_name_dynamotable),
the response validator (aws_base.validate_aws), and the provisioning
operations of S3Bucket and DynamoTable, modelled as explicit state
transformers over an idealized remote store whose responses are always
well formed (response-level behaviour is modelled separately where a
property is about malformed responses).

Python strings are modelled as Lean String / List Char; Python regular
expression operations are modelled by dedicated functions that implement
the exact semantics of the concrete patterns used by the source,
including the CPython behaviour that a final dollar anchor also matches
just before a single trailing newline. Inputs are assumed to contain no
newline wherever a dot in a pattern would otherwise matter (git URLs);
the validators model the newline corner exactly.
-/

/-- Association list lookup by string key: Python dict.get. Keys are
unique in every store built here, so first-match semantics coincide with
dict semantics. -/
def alistGet {α : Type} (key : String) : List (String × α) → Option α
  | [] => none
  | (k, v) :: rest => if k = key then some v else alistGet key rest

/-- Association list insert-or-replace by string key. -/
def alistSet {α : Type} (key : String) (value : α) : List (String × α) → List (String × α)
  | [] => [(key, value)]
  | (k, v) :: rest => if k = key then (k, value) :: rest else (k, v) :: alistSet key value rest

/-- Association list in-place value update at a key (no-op when the key is
absent). -/
def alistUpdate {α : Type} (key : String) (f : α → α) : List (String × α) → List (String × α)
  | [] => []
  | (k, v) :: rest => if k = key then (k, f v) :: rest else (k, v) :: alistUpdate key f rest

/-- Python str.split(sep) for a one-character separator: splits on every
occurrence, keeping empty groups, and returns one group for a string with
no separator. -/
def splitOnChar (sep : Char) : List Char → List (List Char)
  | [] => [[]]
  | c :: rest =>
      match splitOnChar sep rest with
      | [] => [[c]]
      | g :: gs => if c = sep then [] :: g :: gs else (c :: g) :: gs

/-- Join a list of character groups with a one-character separator:
Python sep.join. -/
def joinSep (sep : Char) : List (List Char) → List Char
  | [] => []
  | [g] => g
  | g :: gs => g ++ sep :: joinSep sep gs

/-- Drop an exact pattern from the front of a list, when it is a prefix. -/
def dropPat : List Char → List Char → Option (List Char)
  | [], l => some l
  | _ :: _, [] => none
  | p :: ps, c :: cs => if p = c then dropPat ps cs else none

/-- Suffix of the list after the last occurrence of a nonempty pattern,
or none when the pattern does not occur. Later occurrences are preferred,
matching the greedy backtracking of a dot-star before the pattern. -/
def suffixAfterLast (pat : List Char) : List Char → Option (List Char)
  | [] => none
  | c :: cs =>
      match suffixAfterLast pat cs with
      | some r => some r
      | none => dropPat pat (c :: cs)

/-- Python re.sub with the source pattern that deletes uri variables
(scheme prefix, user-at prefix, and every colon) from a host path, for
inputs without newline: first delete up to the last scheme separator if
one occurs, then up to the last at-sign if one occurs, then delete every
remaining colon. This is the sequential-scan semantics of the alternation
in make_backend.source_git. -/
def stripUriVarsList (l : List Char) : List Char :=
  let l1 := match suffixAfterLast [':', '/', '/'] l with
            | some r => r
            | none => l
  let l2 := match suffixAfterLast ['@'] l1 with
            | some r => r
            | none => l1
  l2.filter (fun c => c != ':')

/-- Python re.sub removing a final dot-git suffix, for inputs without a
trailing newline. -/
def stripDotGitList (l : List Char) : List Char :=
  if List.isSuffixOf ['.', 'g', 'i', 't'] l then l.take (l.length - 4) else l

/-- The three values derived by Backend.source_git from the origin URL
(the branch name is read separately and passes through unchanged). -/
structure GitDerivation where
  repo_name : String
  bucket_uri : String
  table_name : String
deriving DecidableEq, Repr

/-- Backend.source_git (make_backend.py): lower-case the origin URL, join
all but the last slash-group and strip uri variables to get the host
path, then assemble repo name, bucket uri and table name exactly as the
source does. -/
def source_git (origin_url : String) : GitDerivation :=
  let git_url_project := origin_url.toList.map Char.toLower
  let parts := splitOnChar '/' git_url_project
  let host_path := stripUriVarsList (joinSep '/' parts.dropLast)
  let hp_parts := splitOnChar '/' host_path
  let git_host := hp_parts.headD []
  let git_path := joinSep '.' hp_parts.tail
  let repo_name := stripDotGitList (parts.getLastD [])
  let bucket_uri := git_host ++ ('/' :: git_path) ++ ('/' :: repo_name)
  let table_name := "terraform.".toList ++ joinSep '.' (splitOnChar '/' bucket_uri).dropLast
  ⟨String.mk repo_name, String.mk bucket_uri, String.mk table_name⟩

/-- Character class: lower-case ascii letter. -/
def isLowerAlpha (c : Char) : Bool := 'a' ≤ c && c ≤ 'z'

/-- Character class: upper-case ascii letter. -/
def isUpperAlpha (c : Char) : Bool := 'A' ≤ c && c ≤ 'Z'

/-- Character class: ascii digit. -/
def isDigitChar (c : Char) : Bool := '0' ≤ c && c ≤ '9'

/-- Character class of the bucket-name grammar: lower-case letters,
digits, dot and dash. -/
def isBucketChar (c : Char) : Bool := c = '-' || isLowerAlpha c || isDigitChar c || c = '.'

/-- Character class of the table-name grammar: letters of both cases,
digits, dot, underscore and dash. -/
def isTableChar (c : Char) : Bool :=
  c = '-' || isLowerAlpha c || isUpperAlpha c || isDigitChar c || c = '.' || c = '_'

/-- Special characters that may not repeat in a bucket name. -/
def isBucketSpecial (c : Char) : Bool := c = '-' || c = '.'

/-- Special characters that may not repeat in a table name. -/
def isTableSpecial (c : Char) : Bool := c = '-' || c = '.' || c = '_'

/-- Python re.search of a two-character class repetition: true when two
adjacent characters both belong to the class. -/
def hasDoubleSpecial (special : Char → Bool) : List Char → Bool
  | a :: b :: rest => (special a && special b) || hasDoubleSpecial special (b :: rest)
  | _ => false

/-- Python re.match of a caret-anchored one-character class: true when
the string is nonempty and its first character is in the class. -/
def startsWithClass (cls : Char → Bool) : List Char → Bool
  | [] => false
  | c :: _ => cls c

/-- Python re.match of caret, class star, dollar: CPython semantics where
the dollar anchor matches at the end of the string or just before a
newline that is the last character, so a single trailing newline is
accepted in addition to fully class-matching strings. -/
def pyMatchStarDollar (cls : Char → Bool) (l : List Char) : Bool :=
  l.all cls ||
    (match l.getLast? with
     | some c => c = '\n' && l.dropLast.all cls
     | none => false)

/-- validate_s3bucket_name (aws_bucket.py): the check chain of the
source, for string input. The non-string guard of the source constructs
a ValueError without raising it and is modelled in the PyVal wrapper
below. -/
def validate_s3bucket_name (bucket_name : String) : Bool × String :=
  if bucket_name.length < 3 || bucket_name.length > 63 then
    (false, "BucketName should be of length: [3-63]")
  else if bucket_name.toList.any isUpperAlpha then
    (false, "BucketName cant contain upper-case characters")
  else if !(startsWithClass (fun c => isLowerAlpha c || isDigitChar c) bucket_name.toList) then
    (false, "BucketName should start with a lowercase letter or number")
  else if hasDoubleSpecial isBucketSpecial bucket_name.toList then
    (false, "BucketName cant contain two special characters [-, .] in a row")
  else if !(pyMatchStarDollar isBucketChar bucket_name.toList) then
    (false, "BucketName contains invalid character. Allowed characters: [a-z, 0-9, ., -]")
  else
    (true, "Success")

/-- validate_name_dynamotable (aws_table.py): the check chain of the
source, for string input; the upper length bound is 255 minus 5 reserved
for a suffix. -/
def validate_name_dynamotable (table_name : String) : Bool × String :=
  if table_name.length < 3 || table_name.length > 250 then
    (false, "TableName should be of length: [3-255]")
  else if !(startsWithClass (fun c => isLowerAlpha c || isUpperAlpha c || isDigitChar c)
             table_name.toList) then
    (false, "BucketName should start with a lowercase letter or number")
  else if hasDoubleSpecial isTableSpecial table_name.toList then
    (false, "TableName cant contain two special characters [-, ., _] in a row")
  else if !(pyMatchStarDollar isTableChar table_name.toList) then
    (false, "TableName contains invalid character. Allowed characters: [a-z, A-Z, 0-9, ., -, _]")
  else
    (true, "Success")

/-- Modelled from the words of the specification: the bucket-name rule of
section 8, namely length within three and sixty-three, no upper-case
character, first character a lower-case letter or digit, no two adjacent
special characters, and every character from the bucket class. -/
def bucket_name_spec (s : String) : Bool :=
  decide (3 ≤ s.length) && decide (s.length ≤ 63)
    && s.toList.all (fun c => !(isUpperAlpha c))
    && startsWithClass (fun c => isLowerAlpha c || isDigitChar c) s.toList
    && !(hasDoubleSpecial isBucketSpecial s.toList)
    && s.toList.all isBucketChar

/-- Modelled from the words of the specification: the table-name rule of
section 8, namely length within three and two hundred fifty, first
character alphanumeric, no two adjacent special characters, and every
character from the table class. -/
def table_name_spec (s : String) : Bool :=
  decide (3 ≤ s.length) && decide (s.length ≤ 250)
    && startsWithClass (fun c => isLowerAlpha c || isUpperAlpha c || isDigitChar c) s.toList
    && !(hasDoubleSpecial isTableSpecial s.toList)
    && s.toList.all isTableChar

/-- A Python value, as far as the validators distinguish inputs: a
string, an integer, None, or a list of a given length (a stand-in for any
sized non-string container). -/
inductive PyVal where
  | pystr (s : String)
  | pyint (n : Int)
  | pynone
  | pylist (len : Nat)
deriving DecidableEq, Repr

/-- Outcome of calling a Python function: a returned value or a raised
exception, identified by its type name. -/
inductive PyOutcome (α : Type) where
  | ok (a : α)
  | exc (exc_type : String)
deriving DecidableEq, Repr

/-- The len of a Python value when it has one: the dunder len attribute
exists on strings and lists, not on integers or None. -/
def py_len : PyVal → Option Nat
  | .pystr s => some s.length
  | .pylist n => some n
  | .pyint _ => none
  | .pynone => none

/-- validate_s3bucket_name on an arbitrary Python value: the non-string
guard of the source constructs a ValueError but never raises it, so a
value without len raises AttributeError at the length call, a sized
non-string outside the length bounds returns the length failure, and a
sized non-string inside the bounds raises TypeError at the first regex
call. -/
def validate_s3bucket_name_py : PyVal → PyOutcome (Bool × String)
  | .pystr s => .ok (validate_s3bucket_name s)
  | v =>
      match py_len v with
      | none => .exc "AttributeError"
      | some n =>
          if n < 3 || n > 63 then .ok (false, "BucketName should be of length: [3-63]")
          else .exc "TypeError"

/-- validate_name_dynamotable on an arbitrary Python value, with the same
missing-raise behaviour as the bucket validator. -/
def validate_name_dynamotable_py : PyVal → PyOutcome (Bool × String)
  | .pystr s => .ok (validate_name_dynamotable s)
  | v =>
      match py_len v with
      | none => .exc "AttributeError"
      | some n =>
          if n < 3 || n > 250 then .ok (false, "TableName should be of length: [3-255]")
          else .exc "TypeError"

/-- A value inside a remote API response: an integer, a string, a nested
dictionary, or anything else. Responses themselves are dictionaries from
string keys to such values. -/
inductive AwsVal where
  | intv (n : Int)
  | strv (s : String)
  | dict (entries : List (String × AwsVal))
  | nullv

/-- A remote API response: a dictionary from string keys to values. -/
abbrev AwsResponse := List (String × AwsVal)

/-- validate_aws (aws_base.py): check that the response carries a
metadata dictionary with an integer status-code field equal to the
expected one; a failed check raises ResponseError, modelled as the error
branch carrying the message. -/
def validate_aws (response : AwsResponse) (expect_status_code : Int) : Except String Bool :=
  match alistGet "ResponseMetadata" response with
  | some (.dict meta) =>
      (match alistGet "HTTPStatusCode" meta with
       | some (.intv status_code) =>
           if status_code ≠ expect_status_code then
             Except.error ("HTTPStatusCode=" ++ toString status_code)
           else
             Except.ok true
       | _ => Except.error "No HTTPStatusCode received by API")
  | _ => Except.error "No response received by API"

/-- Modelled from the words of the specification: a response is well
formed for an expected status when its metadata field is a dictionary
whose status-code field is exactly the expected integer; the claim of
section 4.2 states that validation fails in precisely the complementary
cases. -/
def response_wellformed (response : AwsResponse) (expect_status_code : Int) : Prop :=
  ∃ meta, alistGet "ResponseMetadata" response = some (AwsVal.dict meta)
    ∧ alistGet "HTTPStatusCode" meta = some (AwsVal.intv expect_status_code)

/-- The remotely stored state of one bucket in our account: its tag set,
the four public-access-block flags, and whether versioning is enabled. -/
structure BucketData where
  tags : List (String × String)
  block_public_acls : Bool
  ignore_public_acls : Bool
  block_public_policy : Bool
  restrict_public_buckets : Bool
  versioning_enabled : Bool
deriving DecidableEq, Repr

/-- Replace the tag set of a bucket. -/
def setTags (d : BucketData) (tags : List (String × String)) : BucketData :=
  ⟨tags, d.block_public_acls, d.ignore_public_acls, d.block_public_policy,
    d.restrict_public_buckets, d.versioning_enabled⟩

/-- Replace the four public-access-block flags of a bucket. -/
def setPublicAccessBlock (d : BucketData) (b1 b2 b3 b4 : Bool) : BucketData :=
  ⟨d.tags, b1, b2, b3, b4, d.versioning_enabled⟩

/-- Replace the versioning status of a bucket. -/
def setVersioning (d : BucketData) (v : Bool) : BucketData :=
  ⟨d.tags, d.block_public_acls, d.ignore_public_acls, d.block_public_policy,
    d.restrict_public_buckets, v⟩

/-- The remote object store, restricted to the buckets of our account:
bucket name to bucket data. The idealized API model answers every call
with a well formed response of the documented status code, so response
validation never fails here; buckets of other accounts and transport
failures are outside this model. -/
structure S3Store where
  buckets : List (String × BucketData)
deriving DecidableEq, Repr

/-- A bucket as the create call makes it: private, no tags, no public
access block configuration, versioning off. -/
def emptyBucketData : BucketData := ⟨[], false, false, false, false, false⟩

/-- A well formed response with status code 200. -/
def ok200Response : AwsResponse :=
  [("ResponseMetadata", AwsVal.dict [("HTTPStatusCode", AwsVal.intv 200)])]

/-- Outcome of the head-bucket probe: a response, or the client error the
sdk raises when the service answers not-found. -/
inductive HeadBucketOutcome where
  | resp (r : AwsResponse)
  | clientError

/-- Idealized head-bucket call: a well formed 200 response when the
bucket is in our account, the not-found client error otherwise. -/
def head_bucket (st : S3Store) (bucket_name : String) : HeadBucketOutcome :=
  match alistGet bucket_name st.buckets with
  | some _ => .resp ok200Response
  | none => .clientError

/-- S3Bucket.bucket_exist (aws_bucket.py), as a function of the probe
outcome: a client error and a response failing validation both yield
false; a validated response yields true. -/
def bucket_exist_on (o : HeadBucketOutcome) : Bool :=
  match o with
  | .clientError => false
  | .resp r =>
      match validate_aws r 200 with
      | .error _ => false
      | .ok _ => true

/-- S3Bucket.bucket_exist against the idealized store. -/
def bucket_exist (st : S3Store) (bucket_name : String) : Bool :=
  bucket_exist_on (head_bucket st bucket_name)

/-- Outcome of the get-bucket-tagging call: the tag set, the no-such-
bucket error, or the client error raised when the bucket has no tag set. -/
inductive TaggingOutcome where
  | resp (tag_set : List (String × String))
  | noSuchBucket
  | clientError

/-- Idealized get-bucket-tagging call. -/
def get_bucket_tagging (st : S3Store) (bucket_name : String) : TaggingOutcome :=
  match alistGet bucket_name st.buckets with
  | none => .noSuchBucket
  | some d => if d.tags = [] then .clientError else .resp d.tags

/-- S3Bucket.bucket_owned (aws_bucket.py): fetch the tag set, treat every
failure as not owned, and otherwise require exactly one tag with key
managed_by and value terraform-init. -/
def bucket_owned (st : S3Store) (bucket_name : String) : Bool :=
  match get_bucket_tagging st bucket_name with
  | .noSuchBucket => false
  | .clientError => false
  | .resp tag_set =>
      if tag_set = [] then false
      else
        let found := tag_set.filter (fun tag => tag.fst = "managed_by" && tag.snd = "terraform-init")
        found.length == 1

/-- Result of running a provisioning method: the new store together with
the list of mutating remote calls issued, or a process exit with a
message. -/
inductive S3RunResult where
  | ok (st : S3Store) (mutations : List String)
  | exited (msg : String)
deriving DecidableEq, Repr

/-- Idealized create-bucket call: none models the already-owned-by-you
error, otherwise the bucket is added with creation defaults. -/
def api_create_bucket (st : S3Store) (bucket_name : String) : Option S3Store :=
  match alistGet bucket_name st.buckets with
  | some _ => none
  | none => some ⟨alistSet bucket_name emptyBucketData st.buckets⟩

/-- Idealized put-bucket-tagging call (status 204). -/
def api_put_bucket_tagging (st : S3Store) (bucket_name : String)
    (tags : List (String × String)) : S3Store :=
  ⟨alistUpdate bucket_name (fun d => setTags d tags) st.buckets⟩

/-- Idealized put-public-access-block call setting all four flags. -/
def api_put_public_access_block (st : S3Store) (bucket_name : String) : S3Store :=
  ⟨alistUpdate bucket_name (fun d => setPublicAccessBlock d true true true true) st.buckets⟩

/-- Idealized put-bucket-versioning call enabling versioning. -/
def api_put_bucket_versioning (st : S3Store) (bucket_name : String) : S3Store :=
  ⟨alistUpdate bucket_name (fun d => setVersioning d true) st.buckets⟩

/-- S3Bucket.create_bucket (aws_bucket.py): exit when the bucket exists
but is not owned; return unchanged when it exists and is owned; else
create it and tag it as managed by terraform-init. The already-owned
branch of the source returns without tagging and is kept. -/
def create_bucket (bucket_name : String) (st : S3Store) : S3RunResult :=
  if bucket_exist st bucket_name = true then
    if bucket_owned st bucket_name = false then
      .exited "bucket exist in our account, but is not managed by terraform-init"
    else
      .ok st []
  else
    match api_create_bucket st bucket_name with
    | none => .ok st ["create_bucket"]
    | some st1 =>
        let st2 := api_put_bucket_tagging st1 bucket_name [("managed_by", "terraform-init")]
        .ok st2 ["create_bucket", "put_bucket_tagging"]

/-- S3Bucket.tighten_policy (aws_bucket.py): exit unless the bucket is
owned, then block all public access and enable versioning. -/
def tighten_policy (bucket_name : String) (st : S3Store) : S3RunResult :=
  if bucket_owned st bucket_name ≠ true then
    .exited "cant update policy, bucket is not managed by us."
  else
    let st1 := api_put_public_access_block st bucket_name
    let st2 := api_put_bucket_versioning st1 bucket_name
    .ok st2 ["put_public_access_block", "put_bucket_versioning"]

/-- The provisioning sequence run by the S3Bucket initializer with
auto_create: create_bucket chained into tighten_policy, accumulating the
mutating calls. -/
def create_and_secure (bucket_name : String) (st : S3Store) : S3RunResult :=
  match create_bucket bucket_name st with
  | .exited msg => .exited msg
  | .ok st1 calls1 =>
      match tighten_policy bucket_name st1 with
      | .exited msg => .exited msg
      | .ok st2 calls2 => .ok st2 (calls1 ++ calls2)

/-- The guarantee of section 4.3: the bucket exists, carries the
managed-by tag, has all four public-access-block flags set, and has
versioning enabled. -/
def bucketProvisioned (st : S3Store) (bucket_name : String) : Prop :=
  ∃ d, alistGet bucket_name st.buckets = some d
    ∧ ("managed_by", "terraform-init") ∈ d.tags
    ∧ d.block_public_acls = true
    ∧ d.ignore_public_acls = true
    ∧ d.block_public_policy = true
    ∧ d.restrict_public_buckets = true
    ∧ d.versioning_enabled = true

/-- A value stored in a table item attribute: a string or anything
else (only string bucket names are ever accepted back). -/
inductive DynVal where
  | dstr (s : String)
  | dother
deriving DecidableEq, Repr

/-- A coordination table: its hash key name, fixed at creation, and its
items, keyed by the value of the hash key attribute. -/
structure DynTable where
  hash_key : String
  items : List (String × List (String × DynVal))
deriving DecidableEq, Repr

/-- The remote key-value database of our account: table name to table. -/
structure DynamoStore where
  tables : List (String × DynTable)
deriving DecidableEq, Repr

/-- Outcome of a describe-table call: a response, or the resource-not-
found error. -/
inductive DescribeOutcome where
  | resp (r : AwsResponse)
  | resourceNotFound

/-- Idealized describe-table call: a well formed 200 response when the
table exists, the not-found error otherwise. -/
def describe_table (st : DynamoStore) (name : String) : DescribeOutcome :=
  match alistGet name st.tables with
  | some _ => .resp ok200Response
  | none => .resourceNotFound

/-- Result of an existence probe that may re-raise a ResponseError, as
DynamoTable.tables_exist does. -/
inductive ProbeResult where
  | val (b : Bool)
  | raisedResponseError (msg : String)
deriving DecidableEq, Repr

/-- DynamoTable.tables_exist (aws_table.py), as a function of the two
describe outcomes: not-found on the lock table yields false immediately;
a response failing validation re-raises the ResponseError; otherwise the
suffix-s3 table is probed the same way and true needs both probes to
validate. -/
def tables_exist_on (r_lock r_s3 : DescribeOutcome) : ProbeResult :=
  match r_lock with
  | .resourceNotFound => .val false
  | .resp r =>
      match validate_aws r 200 with
      | .error m => .raisedResponseError m
      | .ok _ =>
          match r_s3 with
          | .resourceNotFound => .val false
          | .resp r2 =>
              match validate_aws r2 200 with
              | .error m => .raisedResponseError m
              | .ok _ => .val true

/-- DynamoTable.tables_exist against the idealized store. -/
def tables_exist (table_name : String) (st : DynamoStore) : ProbeResult :=
  tables_exist_on (describe_table st (table_name ++ ".lock"))
    (describe_table st (table_name ++ ".s3"))

/-- A freshly created table with the given hash key and no items. -/
def newTable (key : String) : DynTable := ⟨key, []⟩

/-- Idealized create-table call: none models the resource-in-use error
on an existing table, otherwise the empty table is added. -/
def api_create_table (st : DynamoStore) (name : String) (key : String) : Option DynamoStore :=
  match alistGet name st.tables with
  | some _ => none
  | none => some ⟨alistSet name (newTable key) st.tables⟩

/-- The create-table call with the resource-in-use error swallowed, as
the try blocks of DynamoTable.create_tables do. -/
def create_table_ignore_inuse (st : DynamoStore) (name key : String) : DynamoStore :=
  match api_create_table st name key with
  | none => st
  | some s => s

/-- Result of running a table method: the value with the new store and
the mutating calls issued, a process exit, or a re-raised exception. -/
inductive DynRunResult (α : Type) where
  | ok (a : α) (st : DynamoStore) (mutations : List String)
  | exited (msg : String)
  | raised (msg : String)
deriving DecidableEq, Repr

/-- DynamoTable.create_tables (aws_table.py): when check_exist is set and
both tables already exist, return unchanged; when the probe re-raises a
ResponseError it propagates; otherwise create the lock table with hash
key LockID and the registry table with hash key GitURI, swallowing the
in-use error on either, then wait until both are active (immediate in
this model). -/
def create_tables (table_name : String) (check_exist : Bool) (st : DynamoStore) :
    DynRunResult Unit :=
  match (if check_exist then tables_exist table_name st else ProbeResult.val false) with
  | .raisedResponseError m => .raised m
  | .val true => .ok () st []
  | .val false =>
      let st1 := create_table_ignore_inuse st (table_name ++ ".lock") "LockID"
      let st2 := create_table_ignore_inuse st1 (table_name ++ ".s3") "GitURI"
      .ok () st2 ["create_table", "create_table"]

/-- time_string (aws_table.py): the current time in microseconds as a
decimal string; the clock reading is a parameter of the model. -/
def time_string (now_usec : Nat) : String := toString now_usec

/-- The fall-through taken by DynamoTable.lookup_s3 after a KeyError on
the stored item: return none unless auto_create is set, else synthesize
the time-based name, validate it with the bucket validator (an invalid
name raises ValueError), and put the new row. -/
def lookup_s3_allocate (table_name bucket_uri : String) (auto_create : Bool)
    (now_usec : Nat) (st : DynamoStore) : DynRunResult (Option String) :=
  if auto_create = false then .ok none st []
  else
    let bucket_name := table_name ++ "-" ++ time_string now_usec
    match validate_s3bucket_name bucket_name with
    | (false, msg) => .raised msg
    | (true, _) =>
        let item := [("GitURI", DynVal.dstr bucket_uri), ("BucketName", DynVal.dstr bucket_name)]
        let st2 : DynamoStore :=
          ⟨alistUpdate (table_name ++ ".s3")
            (fun t => ⟨t.hash_key, alistSet bucket_uri item t.items⟩) st.tables⟩
        .ok (some bucket_name) st2 ["put_item"]

/-- DynamoTable.lookup_s3 (aws_table.py): read the registry row for the
uri; a stored string bucket name is returned with no write; a missing
row or a non-string value falls through to the allocate path; a get-item
on a missing table re-raises the client error. -/
def lookup_s3 (table_name bucket_uri : String) (auto_create : Bool)
    (now_usec : Nat) (st : DynamoStore) : DynRunResult (Option String) :=
  match alistGet (table_name ++ ".s3") st.tables with
  | none => .raised "ResourceNotFoundException"
  | some tbl =>
      match alistGet bucket_uri tbl.items with
      | some item =>
          (match alistGet "BucketName" item with
           | some (.dstr value) => .ok (some value) st []
           | _ => lookup_s3_allocate table_name bucket_uri auto_create now_usec st)
      | none => lookup_s3_allocate table_name bucket_uri auto_create now_usec st

/-- C1 (counterexample): for the SSH-form origin URL of the claim, the
code does not produce the claimed bucket uri and table name: the colon
between host and path is deleted by the uri-variable substitution rather
than treated as a path separator, so host and first path segment fuse. -/
theorem source_git_ssh_claim_refuted :
    ¬ ((source_git "git@github.com:org/sub/myrepo.git").repo_name = "myrepo"
      ∧ (source_git "git@github.com:org/sub/myrepo.git").bucket_uri = "github.com/org.sub/myrepo"
      ∧ (source_git "git@github.com:org/sub/myrepo.git").table_name = "terraform.github.com.org.sub") := by
  decide

/-- C1 (amended): for the SSH-form origin URL the derivation produces
repo_name myrepo, bucket_uri github.comorg/sub/myrepo and table_name
terraform.github.comorg.sub; the values the claim states are produced for
the https form of the same URL. -/
theorem source_git_example_values :
    source_git "git@github.com:org/sub/myrepo.git"
      = ⟨"myrepo", "github.comorg/sub/myrepo", "terraform.github.comorg.sub"⟩
    ∧ source_git "https://github.com/org/sub/myrepo.git"
      = ⟨"myrepo", "github.com/org.sub/myrepo", "terraform.github.com.org.sub"⟩ := by
  exact ⟨rfl, rfl⟩

/-- C2 (code bug): the bucket validator accepts a name with a single
trailing newline although the newline is outside the allowed character
class, because the dollar anchor of the final pattern also matches just
before a trailing newline; the specification rule of the claim rejects
such a name. -/
theorem validate_s3bucket_name_newline_bug :
    (validate_s3bucket_name "ab\n").fst = true
      ∧ bucket_name_spec "ab\n" = false
      ∧ isBucketChar '\n' = false := by
  decide

/-- C3 (code bug): the table validator accepts a name with a single
trailing newline although the newline is outside the allowed character
class, for the same dollar-anchor reason as the bucket validator. -/
theorem validate_name_dynamotable_newline_bug :
    (validate_name_dynamotable "ab\n").fst = true
      ∧ table_name_spec "ab\n" = false
      ∧ isTableChar '\n' = false := by
  decide

/-- C9 (counterexample): on the non-string input None both validators
raise AttributeError instead of returning a pair, because the
ValueError meant for non-string input is constructed but never raised
and the subsequent length call fails. -/
theorem validators_raise_on_none :
    validate_s3bucket_name_py PyVal.pynone = .exc "AttributeError"
      ∧ validate_name_dynamotable_py PyVal.pynone = .exc "AttributeError" := by
  exact ⟨rfl, rfl⟩

/-- C9 (amended): for every string input both validators return a pair
and raise nothing; non-string inputs can raise. -/
theorem validators_total_on_strings :
    ∀ s : String,
      validate_s3bucket_name_py (PyVal.pystr s) = .ok (validate_s3bucket_name s)
        ∧ validate_name_dynamotable_py (PyVal.pystr s) = .ok (validate_name_dynamotable s) := by
  intro s
  exact ⟨rfl, rfl⟩

/-- C4: validation of a remote response returns true exactly on well
formed responses with the expected status code, and raises ResponseError
exactly on the complementary responses: metadata absent or not a
dictionary, status-code field absent or not an integer, or status code
different from the expected one. -/
theorem validate_aws_spec (response : AwsResponse) (expect_status_code : Int) :
    (validate_aws response expect_status_code = Except.ok true
        ↔ response_wellformed response expect_status_code)
      ∧ ((∃ msg, validate_aws response expect_status_code = Except.error msg)
        ↔ ¬ response_wellformed response expect_status_code) := by
  cases h1 : alistGet "ResponseMetadata" response with
  | none => simp [validate_aws, response_wellformed, h1]
  | some v =>
    cases v with
    | intv n => simp [validate_aws, response_wellformed, h1]
    | strv s => simp [validate_aws, response_wellformed, h1]
    | nullv => simp [validate_aws, response_wellformed, h1]
    | dict meta =>
      cases h2 : alistGet "HTTPStatusCode" meta with
      | none => simp [validate_aws, response_wellformed, h1, h2]
      | some w =>
        cases w with
        | strv s => simp [validate_aws, response_wellformed, h1, h2]
        | nullv => simp [validate_aws, response_wellformed, h1, h2]
        | dict d => simp [validate_aws, response_wellformed, h1, h2]
        | intv n =>
          by_cases hn : n = expect_status_code
          · subst hn
            simp [validate_aws, response_wellformed, h1, h2]
          · simp [validate_aws, response_wellformed, h1, h2, hn]

/-- Looking up the key just set returns the new value. -/
theorem alistGet_set_self {α : Type} (key : String) (v : α) (l : List (String × α)) :
    alistGet key (alistSet key v l) = some v := by
  induction l with
  | nil => simp [alistGet, alistSet]
  | cons p rest ih =>
      obtain ⟨k, w⟩ := p
      by_cases hk : k = key
      · simp [alistGet, alistSet, hk]
      · simp [alistGet, alistSet, hk, ih]

/-- Setting one key does not change the lookup of another. -/
theorem alistGet_set_ne {α : Type} (key1 key2 : String) (v : α) (l : List (String × α))
    (h : key1 ≠ key2) :
    alistGet key1 (alistSet key2 v l) = alistGet key1 l := by
  induction l with
  | nil =>
      have h2 : ¬ (key2 = key1) := fun he => h he.symm
      simp [alistGet, alistSet, h2]
  | cons p rest ih =>
      obtain ⟨k, w⟩ := p
      simp only [alistSet]
      by_cases hk : k = key2
      · rw [if_pos hk]
        have hk1 : ¬ (k = key1) := fun he => h (he.symm.trans hk)
        simp only [alistGet, if_neg hk1]
      · rw [if_neg hk]
        by_cases hk1 : k = key1
        · simp only [alistGet, if_pos hk1]
        · simp only [alistGet, if_neg hk1]
          exact ih

/-- Updating at a key maps the stored value at that key. -/
theorem alistGet_update_self {α : Type} (key : String) (f : α → α) (l : List (String × α)) :
    alistGet key (alistUpdate key f l) = Option.map f (alistGet key l) := by
  induction l with
  | nil => simp [alistGet, alistUpdate]
  | cons p rest ih =>
      obtain ⟨k, w⟩ := p
      by_cases hk : k = key
      · simp [alistGet, alistUpdate, hk]
      · simp [alistGet, alistUpdate, hk, ih]

/-- An owned bucket is present and carries the managed-by tag. -/
theorem bucket_owned_true_mem (st : S3Store) (bucket_name : String)
    (h : bucket_owned st bucket_name = true) :
    ∃ d, alistGet bucket_name st.buckets = some d
      ∧ ("managed_by", "terraform-init") ∈ d.tags := by
  cases hg : alistGet bucket_name st.buckets with
  | none => simp [bucket_owned, get_bucket_tagging, hg] at h
  | some d =>
      by_cases ht : d.tags = []
      · simp [bucket_owned, get_bucket_tagging, hg, ht] at h
      · simp only [bucket_owned, get_bucket_tagging, hg, ht, if_false] at h
        refine ⟨d, rfl, ?_⟩
        have hlen : (d.tags.filter
            (fun tag => tag.fst = "managed_by" && tag.snd = "terraform-init")).length = 1 := by
          simpa using h
        obtain ⟨t, htmem⟩ : ∃ t, t ∈ d.tags.filter
            (fun tag => tag.fst = "managed_by" && tag.snd = "terraform-init") := by
          cases hf : d.tags.filter
              (fun tag => tag.fst = "managed_by" && tag.snd = "terraform-init") with
          | nil => rw [hf] at hlen; simp at hlen
          | cons a rest => exact ⟨a, List.mem_cons_self a rest⟩
        have hspec := List.mem_filter.mp htmem
        obtain ⟨t1, t2⟩ := t
        have h2 := hspec.2
        simp only [decide_eq_true_eq, Bool.and_eq_true] at h2
        obtain ⟨h21, h22⟩ := h2
        subst h21
        subst h22
        exact hspec.1

/-- A successful tighten_policy leaves the bucket provisioned: the owned
check guarantees presence and the managed-by tag, and the two policy
calls set the four flags and versioning. -/
theorem tighten_policy_ok_state (bucket_name : String) (st stt : S3Store) (c : List String)
    (h : tighten_policy bucket_name st = S3RunResult.ok stt c) :
    bucketProvisioned stt bucket_name := by
  unfold tighten_policy at h
  by_cases ho : bucket_owned st bucket_name = true
  · rw [if_neg (by simp [ho])] at h
    obtain ⟨hst, hc⟩ := S3RunResult.ok.inj h
    obtain ⟨d, hd, hmem⟩ := bucket_owned_true_mem st bucket_name ho
    refine ⟨setVersioning (setPublicAccessBlock d true true true true) true, ?_, ?_,
      rfl, rfl, rfl, rfl, rfl⟩
    · rw [← hst]
      show alistGet bucket_name
          (alistUpdate bucket_name (fun d => setVersioning d true)
            (alistUpdate bucket_name (fun d => setPublicAccessBlock d true true true true)
              st.buckets)) = _
      rw [alistGet_update_self, alistGet_update_self, hd]
      rfl
    · exact hmem
  · rw [if_pos ho] at h
    exact absurd h (by simp)

/-- C5: whenever the provisioning sequence create_bucket followed by
tighten_policy completes without exiting, the final store has the bucket
present, tagged managed_by terraform-init, with all four public-access-
block flags set and versioning enabled, whether the run created the
bucket or found it already owned. -/
theorem create_and_secure_provisions (bucket_name : String) (st st2 : S3Store)
    (calls : List String)
    (h : create_and_secure bucket_name st = S3RunResult.ok st2 calls) :
    bucketProvisioned st2 bucket_name := by
  unfold create_and_secure at h
  split at h
  · exact absurd h (by simp)
  · rename_i st1 calls1 hcb
    split at h
    · exact absurd h (by simp)
    · rename_i stt calls2 htp
      obtain ⟨hst, hc⟩ := S3RunResult.ok.inj h
      rw [← hst]
      exact tighten_policy_ok_state bucket_name st1 stt calls2 htp

/-- C5 witness: running the sequence on the empty store for a fresh
bucket name ends in the fully provisioned store. -/
theorem create_and_secure_provisions_witness :
    bucketProvisioned
      ⟨[("b", ⟨[("managed_by", "terraform-init")], true, true, true, true, true⟩)]⟩ "b" :=
  create_and_secure_provisions "b" ⟨[]⟩
    ⟨[("b", ⟨[("managed_by", "terraform-init")], true, true, true, true, true⟩)]⟩
    ["create_bucket", "put_bucket_tagging", "put_public_access_block", "put_bucket_versioning"]
    (by decide)

/-- C6 (counterexample): for a store holding the bucket already owned by
the tool but with versioning off and public access unblocked, the
auto-create sequence is not a no-op: it issues the two policy mutations
and changes the store state, because tighten_policy always runs after
the short-circuiting create_bucket. -/
theorem create_and_secure_owned_not_noop :
    bucket_exist
        ⟨[("b", ⟨[("managed_by", "terraform-init")], false, false, false, false, false⟩)]⟩
        "b" = true
      ∧ bucket_owned
        ⟨[("b", ⟨[("managed_by", "terraform-init")], false, false, false, false, false⟩)]⟩
        "b" = true
      ∧ create_and_secure "b"
          ⟨[("b", ⟨[("managed_by", "terraform-init")], false, false, false, false, false⟩)]⟩
        = S3RunResult.ok
            ⟨[("b", ⟨[("managed_by", "terraform-init")], true, true, true, true, true⟩)]⟩
            ["put_public_access_block", "put_bucket_versioning"]
      ∧ (⟨[("b", ⟨[("managed_by", "terraform-init")], true, true, true, true, true⟩)]⟩ : S3Store)
          ≠ ⟨[("b", ⟨[("managed_by", "terraform-init")], false, false, false, false, false⟩)]⟩ := by
  decide

/-- C6 (amended): when the bucket exists and is owned, create_bucket
alone is a no-op returning the store unchanged with no mutating call,
but the full auto-create sequence still issues put_public_access_block
and put_bucket_versioning, ending in the store with exactly those two
policy fields rewritten on that bucket. -/
theorem create_and_secure_owned_only_policy_calls (bucket_name : String) (st : S3Store)
    (hex : bucket_exist st bucket_name = true)
    (how : bucket_owned st bucket_name = true) :
    create_bucket bucket_name st = S3RunResult.ok st []
      ∧ create_and_secure bucket_name st
        = S3RunResult.ok
            (api_put_bucket_versioning (api_put_public_access_block st bucket_name) bucket_name)
            ["put_public_access_block", "put_bucket_versioning"] := by
  have h1 : create_bucket bucket_name st = S3RunResult.ok st [] := by
    unfold create_bucket
    rw [if_pos hex, if_neg (by simp [how])]
  have h2 : tighten_policy bucket_name st
      = S3RunResult.ok
          (api_put_bucket_versioning (api_put_public_access_block st bucket_name) bucket_name)
          ["put_public_access_block", "put_bucket_versioning"] := by
    unfold tighten_policy
    rw [if_neg (by simp [how])]
  refine ⟨h1, ?_⟩
  unfold create_and_secure
  simp only [h1, h2, List.nil_append]

/-- C6 witness: the amended statement evaluated on the concrete owned,
not yet tightened bucket. -/
theorem create_and_secure_owned_only_policy_calls_witness :
    create_bucket "b"
        ⟨[("b", ⟨[("managed_by", "terraform-init")], false, false, false, false, false⟩)]⟩
      = S3RunResult.ok
          ⟨[("b", ⟨[("managed_by", "terraform-init")], false, false, false, false, false⟩)]⟩ []
      ∧ create_and_secure "b"
          ⟨[("b", ⟨[("managed_by", "terraform-init")], false, false, false, false, false⟩)]⟩
        = S3RunResult.ok
            (api_put_bucket_versioning
              (api_put_public_access_block
                ⟨[("b", ⟨[("managed_by", "terraform-init")], false, false, false, false, false⟩)]⟩
                "b")
              "b")
            ["put_public_access_block", "put_bucket_versioning"] :=
  create_and_secure_owned_only_policy_calls "b"
    ⟨[("b", ⟨[("managed_by", "terraform-init")], false, false, false, false, false⟩)]⟩
    (by decide) (by decide)

/-- The canonical well formed 200 response validates. -/
theorem validate_aws_ok200 : validate_aws ok200Response 200 = Except.ok true := rfl

/-- A table name with the lock suffix never equals one with the registry
suffix. -/
theorem append_lock_ne_s3 (tn : String) : tn ++ ".lock" ≠ tn ++ ".s3" := by
  intro h
  have hd := congrArg String.data h
  rw [String.data_append, String.data_append] at hd
  exact absurd (List.append_cancel_left hd) (by decide)

/-- Against the idealized store the existence probe never raises: it is
the conjunction of the two presence checks. -/
theorem tables_exist_eq (table_name : String) (st : DynamoStore) :
    tables_exist table_name st
      = ProbeResult.val ((alistGet (table_name ++ ".lock") st.tables).isSome
          && (alistGet (table_name ++ ".s3") st.tables).isSome) := by
  unfold tables_exist tables_exist_on describe_table
  cases h1 : alistGet (table_name ++ ".lock") st.tables with
  | none => simp
  | some t =>
      cases h2 : alistGet (table_name ++ ".s3") st.tables with
      | none => simp [validate_aws_ok200]
      | some t2 => simp [validate_aws_ok200]

/-- After a create that swallows the in-use error, the table is present. -/
theorem create_table_ignore_inuse_mem (st : DynamoStore) (name key : String) :
    (alistGet name (create_table_ignore_inuse st name key).tables).isSome = true := by
  unfold create_table_ignore_inuse api_create_table
  cases h : alistGet name st.tables with
  | some t => simp [h]
  | none => simp [h, alistGet_set_self]

/-- A create at one name leaves the lookup of another name unchanged. -/
theorem create_table_ignore_inuse_other (st : DynamoStore) (name key other : String)
    (hne : other ≠ name) :
    alistGet other (create_table_ignore_inuse st name key).tables
      = alistGet other st.tables := by
  unfold create_table_ignore_inuse api_create_table
  cases h : alistGet name st.tables with
  | some t => simp [h]
  | none => simp [h, alistGet_set_ne other name (newTable key) st.tables hne]

/-- C8: running create_tables with the existence check twice from any
store succeeds both times; the first run ends in a store holding both
the lock table and the registry table, and the second run returns that
store unchanged with no error and no mutating call. -/
theorem create_tables_idempotent (table_name : String) (st : DynamoStore) :
    ∃ st1 calls1,
      create_tables table_name true st = DynRunResult.ok () st1 calls1
        ∧ (alistGet (table_name ++ ".lock") st1.tables).isSome = true
        ∧ (alistGet (table_name ++ ".s3") st1.tables).isSome = true
        ∧ create_tables table_name true st1 = DynRunResult.ok () st1 [] := by
  by_cases hb : ((alistGet (table_name ++ ".lock") st.tables).isSome
      && (alistGet (table_name ++ ".s3") st.tables).isSome) = true
  · obtain ⟨hl, hs⟩ := Bool.and_eq_true_iff.mp hb
    refine ⟨st, [], ?_, hl, hs, ?_⟩
    · unfold create_tables
      simp only [if_true, tables_exist_eq, hb]
    · unfold create_tables
      simp only [if_true, tables_exist_eq, hb]
  · have hbf : ((alistGet (table_name ++ ".lock") st.tables).isSome
        && (alistGet (table_name ++ ".s3") st.tables).isSome) = false :=
      Bool.eq_false_iff.mpr hb
    have hlock : (alistGet (table_name ++ ".lock")
        (create_table_ignore_inuse (create_table_ignore_inuse st (table_name ++ ".lock") "LockID")
          (table_name ++ ".s3") "GitURI").tables).isSome = true := by
      rw [create_table_ignore_inuse_other _ _ _ _ (append_lock_ne_s3 table_name)]
      exact create_table_ignore_inuse_mem st (table_name ++ ".lock") "LockID"
    have hs3 : (alistGet (table_name ++ ".s3")
        (create_table_ignore_inuse (create_table_ignore_inuse st (table_name ++ ".lock") "LockID")
          (table_name ++ ".s3") "GitURI").tables).isSome = true :=
      create_table_ignore_inuse_mem _ (table_name ++ ".s3") "GitURI"
    refine ⟨create_table_ignore_inuse (create_table_ignore_inuse st (table_name ++ ".lock")
        "LockID") (table_name ++ ".s3") "GitURI",
      ["create_table", "create_table"], ?_, hlock, hs3, ?_⟩
    · unfold create_tables
      simp only [if_true, tables_exist_eq, hbf]
    · unfold create_tables
      simp only [if_true, tables_exist_eq, hlock, hs3, Bool.and_self]

/-- C7: when the registry table holds a row for the uri whose BucketName
attribute is a string, the lookup returns that stored name, performs no
mutating call, and leaves the store unchanged. -/
theorem lookup_s3_existing_row (table_name bucket_uri stored_name : String) (now_usec : Nat)
    (st : DynamoStore) (tbl : DynTable) (item : List (String × DynVal))
    (h1 : alistGet (table_name ++ ".s3") st.tables = some tbl)
    (h2 : alistGet bucket_uri tbl.items = some item)
    (h3 : alistGet "BucketName" item = some (DynVal.dstr stored_name)) :
    lookup_s3 table_name bucket_uri true now_usec st
      = DynRunResult.ok (some stored_name) st [] := by
  simp only [lookup_s3, h1, h2, h3]

/-- C7 witness: the lookup on a one-row registry returns the stored name
and leaves the one-row store intact. -/
theorem lookup_s3_existing_row_witness :
    lookup_s3 "t" "u" true 0
        ⟨[("t.s3", ⟨"GitURI", [("u", [("BucketName", DynVal.dstr "bn")])]⟩)]⟩
      = DynRunResult.ok (some "bn")
          ⟨[("t.s3", ⟨"GitURI", [("u", [("BucketName", DynVal.dstr "bn")])]⟩)]⟩ [] :=
  lookup_s3_existing_row "t" "u" "bn" 0
    ⟨[("t.s3", ⟨"GitURI", [("u", [("BucketName", DynVal.dstr "bn")])]⟩)]⟩
    ⟨"GitURI", [("u", [("BucketName", DynVal.dstr "bn")])]⟩
    [("BucketName", DynVal.dstr "bn")]
    (by decide) (by decide) (by decide)

/-- C10: the table probe returns false only on a not-found describe and
re-raises a ResponseError from a malformed or non-200 describe response
on either table, while the bucket probe maps the same ResponseError to
false. -/
theorem tables_exist_vs_bucket_exist_on_errors :
    (∀ r_lock r_s3 : DescribeOutcome,
        tables_exist_on r_lock r_s3 = ProbeResult.val false →
          r_lock = DescribeOutcome.resourceNotFound ∨ r_s3 = DescribeOutcome.resourceNotFound)
      ∧ (∀ (r : AwsResponse) (m : String) (r_s3 : DescribeOutcome),
          validate_aws r 200 = Except.error m →
            tables_exist_on (DescribeOutcome.resp r) r_s3 = ProbeResult.raisedResponseError m)
      ∧ (∀ (r r2 : AwsResponse) (m : String),
          validate_aws r 200 = Except.ok true → validate_aws r2 200 = Except.error m →
            tables_exist_on (DescribeOutcome.resp r) (DescribeOutcome.resp r2)
              = ProbeResult.raisedResponseError m)
      ∧ (∀ (r : AwsResponse) (m : String),
          validate_aws r 200 = Except.error m →
            bucket_exist_on (HeadBucketOutcome.resp r) = false) := by
  refine ⟨?_, ?_, ?_, ?_⟩
  · intro r_lock r_s3 h
    cases r_lock with
    | resourceNotFound => exact Or.inl rfl
    | resp r =>
        cases hv : validate_aws r 200 with
        | error m => simp [tables_exist_on, hv] at h
        | ok b =>
            cases r_s3 with
            | resourceNotFound => exact Or.inr rfl
            | resp r2 =>
                cases hv2 : validate_aws r2 200 with
                | error m => simp [tables_exist_on, hv, hv2] at h
                | ok b2 => simp [tables_exist_on, hv, hv2] at h
  · intro r m r_s3 hv
    simp [tables_exist_on, hv]
  · intro r r2 m hv hv2
    simp [tables_exist_on, hv, hv2]
  · intro r m hv
    simp [bucket_exist_on, hv]

/-- C10 witness: the empty dictionary fails response validation; the
table probe re-raises it where the bucket probe answers false. -/
theorem tables_exist_vs_bucket_exist_witness :
    tables_exist_on (DescribeOutcome.resp []) DescribeOutcome.resourceNotFound
        = ProbeResult.raisedResponseError "No response received by API"
      ∧ bucket_exist_on (HeadBucketOutcome.resp []) = false :=
  ⟨tables_exist_vs_bucket_exist_on_errors.2.1 [] "No response received by API"
      DescribeOutcome.resourceNotFound rfl,
    tables_exist_vs_bucket_exist_on_errors.2.2.2 [] "No response received by API" rfl⟩
